import Mathlib

/-!
Verification of the vocode server (`src/server/main.py`) against its
natural-language specification.

The SocketIO handlers `handle_connect`, `handle_disconnect`,
`handle_start_conversation`, `handle_audio_data` and
`handle_end_conversation` are embedded as pure functions from the
process-wide registry (the `conversations` dictionary) to a new registry
plus the list of events emitted to the client.  The external
`StreamingConversation` object (from the vocode library, not under
`src/server`) is abstracted by its observable behaviour: whether
`terminate()` raises, the message it raises with, and what
`process_audio` returns (a response, nothing, or an exception message).
The AudioFrame codec of spec section 4.4 has no code under `src/` and is
modelled from the spec.
-/

namespace VocodeServer

/-- An inbound or outbound audio payload, as the handler sees it:
a JSON list of numeric samples, a numpy float32 array (abstracted by the
integer samples it holds; no floating-point arithmetic is performed on
it in the handler), or raw bytes. -/
inductive Payload where
  | plist (xs : List Int)
  | npFloat32 (xs : List Int)
  | bytes (bs : List Nat)
  deriving DecidableEq, Repr

/-- Lines 224-226 of `main.py`: `if isinstance(data, list): data =
np.array(data, dtype=np.float32)`.  A list is converted to a float32
numpy array; every other payload is left as it is. -/
def normalizePayload : Payload → Payload
  | Payload.plist xs => Payload.npFloat32 xs
  | p => p

/-- Abstraction of the vocode library's `StreamingConversation` object
held in the `conversations` dictionary.  `convId` models object
identity (each constructed conversation is a distinct object);
`terminateOk` is whether `terminate()` returns normally or raises, with
message `terminateMsg`; `processAudio` is the observable behaviour of
`process_audio`: a response payload, a falsy result, or a raised
exception carrying a message. -/
structure StreamingConversation where
  convId : Nat
  terminateOk : Bool
  terminateMsg : String
  processAudio : Payload → Except String (Option Payload)

/-- The process-wide `conversations` dictionary, keyed by socket id. -/
abbrev Registry := List (String × StreamingConversation)

/-- Dictionary lookup: `conversations.get(sid)`. -/
def lookupConv (sid : String) : Registry → Option StreamingConversation
  | [] => none
  | (k, c) :: rest => if k = sid then some c else lookupConv sid rest

/-- Dictionary deletion: `del conversations[sid]`. -/
def removeConv (sid : String) : Registry → Registry
  | [] => []
  | (k, c) :: rest =>
      if k = sid then removeConv sid rest else (k, c) :: removeConv sid rest

/-- Dictionary assignment: `conversations[sid] = conv` (overwrites any
entry already present for `sid`). -/
def setEntry (sid : String) (c : StreamingConversation) (reg : Registry) :
    Registry :=
  (sid, c) :: removeConv sid reg

/-- The typed events the handlers emit to the client. -/
inductive Event where
  | connection_established (sid : String)
  | conversation_started
  | audio_response (p : Payload)
  | conversation_ended
  | error (message : String)
  deriving Repr

/-- The environment variables the start handler reads.  `none` models an
unset variable (`os.getenv` returning `None`). -/
structure Env where
  elevenlabs_api_key : Option String
  elevenlabs_voice_id : Option String

/-- Python truthiness of an optional string: `None` and the empty string
are falsy. -/
def truthy : Option String → Bool
  | none => false
  | some s => !s.isEmpty

/-- Lines 125-129 of `main.py`: on connect, log and emit
`connection_established` with the socket id.  The registry is not
touched. -/
def handle_connect (sid : String) (reg : Registry) : Registry × List Event :=
  (reg, [Event.connection_established sid])

/-- Lines 131-141 of `main.py`: on disconnect, if the socket id has a
conversation, call `terminate()` and then delete the entry; an exception
from `terminate()` is caught and only logged, skipping the deletion.
No event is emitted either way. -/
def handle_disconnect (sid : String) (reg : Registry) :
    Registry × List Event :=
  match lookupConv sid reg with
  | some conv =>
      if conv.terminateOk then (removeConv sid reg, []) else (reg, [])
  | none => (reg, [])

/-- Lines 143-210 of `main.py`: on `start_conversation`, build the agent,
check the ElevenLabs credentials (emitting an error and returning if
either is missing or empty), build the synthesizer, transcriber and
conversation, store the conversation under the socket id (overwriting
any existing entry) and emit `conversation_started`.  The freshly
constructed `StreamingConversation` is passed in as `fresh`. -/
def handle_start_conversation (sid : String) (env : Env)
    (fresh : StreamingConversation) (reg : Registry) :
    Registry × List Event :=
  if truthy env.elevenlabs_api_key && truthy env.elevenlabs_voice_id then
    (setEntry sid fresh reg, [Event.conversation_started])
  else
    (reg, [Event.error "ElevenLabs configuration missing"])

/-- Lines 212-240 of `main.py`: on `audio_data`, look up the socket id's
conversation.  If none, emit an error event and process nothing.
Otherwise normalize the payload, hand it to `process_audio`, and emit
`audio_response` on a truthy response, nothing on a falsy one, and an
error event carrying the exception message if `process_audio` raises
(the surrounding try/except catches every exception).  The third
component records the arguments actually passed to `process_audio`.
The registry is never modified. -/
def handle_audio_data (sid : String) (reg : Registry) (data : Payload) :
    Registry × List Event × List Payload :=
  match lookupConv sid reg with
  | some conv =>
      let d := normalizePayload data
      match conv.processAudio d with
      | Except.ok (some resp) => (reg, [Event.audio_response resp], [d])
      | Except.ok none => (reg, [], [d])
      | Except.error msg => (reg, [Event.error msg], [d])
  | none =>
      (reg, [Event.error "No active conversation found"], [])

/-- Lines 242-255 of `main.py`: on `end_conversation`, look up the socket
id's conversation.  If none, only a warning is logged.  Otherwise call
`terminate()`, delete the entry and emit `conversation_ended`; if
`terminate()` raises, the deletion and the `conversation_ended` emission
are skipped and an error event carrying the exception message is
emitted instead. -/
def handle_end_conversation (sid : String) (reg : Registry) :
    Registry × List Event :=
  match lookupConv sid reg with
  | some conv =>
      if conv.terminateOk then
        (removeConv sid reg, [Event.conversation_ended])
      else
        (reg, [Event.error conv.terminateMsg])
  | none => (reg, [])

/-- Modelled from the spec: the AudioFrame of section 3 — an immutable
sample buffer, sample rate, channel count and source timestamp.  The
AudioFrame Codec (spec section 4.4) has no code under `src/`; its data
model and operations below follow the spec's words. -/
structure AudioFrame where
  samples : List Int
  sampleRate : Nat
  channels : Nat
  timestamp : Nat
  deriving DecidableEq, Repr

/-- Reversible encoding of one signed sample into a natural number
(zigzag style), used by the codec's wire format. -/
def zigzag (z : Int) : Nat :=
  if 0 ≤ z then 2 * z.toNat else 2 * (-z).toNat - 1

/-- Inverse of `zigzag`. -/
def unzigzag (n : Nat) : Int :=
  if n % 2 = 0 then (n / 2 : Nat) else -(((n + 1) / 2 : Nat) : Int)

/-- Modelled from the spec: `encode(AudioFrame) -> raw` (section 4.4).
The raw form is a header — sample rate, channel count, sample width
(four bytes, float32) and timestamp — followed by the zigzag-encoded
samples. -/
def encode (f : AudioFrame) : List Nat :=
  f.sampleRate :: f.channels :: 4 :: f.timestamp :: f.samples.map zigzag

/-- Modelled from the spec: `decode(raw) -> AudioFrame`, failing with
`DecodeError` on an unsupported sample width or channel count
(section 4.4).  Supported: mono or stereo, widths 1, 2 or 4. -/
def decode : List Nat → Except String AudioFrame
  | rate :: ch :: width :: ts :: rest =>
      if ch = 1 ∨ ch = 2 then
        if width = 1 ∨ width = 2 ∨ width = 4 then
          Except.ok ⟨rest.map unzigzag, rate, ch, ts⟩
        else Except.error "DecodeError: unsupported sample width"
      else Except.error "DecodeError: unsupported channel count"
  | _ => Except.error "DecodeError: truncated header"

/-! ### Helper lemmas -/

theorem unzigzag_zigzag (z : Int) : unzigzag (zigzag z) = z := by
  unfold zigzag unzigzag
  by_cases h : 0 ≤ z
  · rw [if_pos h]
    have h2 : 2 * z.toNat % 2 = 0 := by omega
    rw [if_pos h2]
    omega
  · rw [if_neg h]
    have h1 : 1 ≤ (-z).toNat := by omega
    have h2 : ¬(2 * (-z).toNat - 1) % 2 = 0 := by omega
    rw [if_neg h2]
    omega

theorem lookupConv_removeConv_self (sid : String) (reg : Registry) :
    lookupConv sid (removeConv sid reg) = none := by
  induction reg with
  | nil => rfl
  | cons p rest ih =>
      obtain ⟨k, c⟩ := p
      by_cases h : k = sid
      · simp [removeConv, h, ih]
      · simp [removeConv, lookupConv, h, ih]

/-- A shared helper: whenever the socket id has an active conversation,
`handle_audio_data` hands exactly the normalized payload to
`process_audio`. -/
theorem processAudio_receives_normalized (sid : String) (reg : Registry)
    (conv : StreamingConversation) (data : Payload)
    (hconv : lookupConv sid reg = some conv) :
    (handle_audio_data sid reg data).2.2 = [normalizePayload data] := by
  unfold handle_audio_data
  rw [hconv]
  rcases hp : conv.processAudio (normalizePayload data) with msg | r
  · simp [hp]
  · rcases r with _ | resp <;> simp [hp]

/-! ### Concrete fixtures used by witnesses and counterexamples -/

/-- A conversation whose `terminate()` succeeds and whose `process_audio`
returns a falsy result. -/
def convOkA : StreamingConversation :=
  { convId := 1, terminateOk := true, terminateMsg := "",
    processAudio := fun _ => Except.ok none }

/-- A second, distinct conversation whose `terminate()` succeeds. -/
def convOkB : StreamingConversation :=
  { convId := 2, terminateOk := true, terminateMsg := "",
    processAudio := fun _ => Except.ok none }

/-- A conversation whose `terminate()` raises. -/
def convFail : StreamingConversation :=
  { convId := 3, terminateOk := false, terminateMsg := "terminate failed",
    processAudio := fun _ => Except.ok none }

/-- A conversation whose `process_audio` raises. -/
def convQuota : StreamingConversation :=
  { convId := 4, terminateOk := true, terminateMsg := "",
    processAudio := fun _ => Except.error "upstream quota exceeded" }

/-- An environment with both ElevenLabs credentials present. -/
def envFull : Env :=
  { elevenlabs_api_key := some "k", elevenlabs_voice_id := some "v" }

/-- An environment with the ElevenLabs API key unset. -/
def envMissingKey : Env :=
  { elevenlabs_api_key := none, elevenlabs_voice_id := some "v" }

/-! ### Claim C1 — duplicate create -/

/-- C1 counterexample: calling `start_conversation` twice for the same
socket id `"dup"` does not fail — the second call emits
`conversation_started` (no error event at all) and the stored entry is
no longer the first conversation.  This refutes the claim that a second
create fails with `DuplicateSessionError` and leaves the first entry
unchanged. -/
theorem duplicate_create_counterexample :
    (handle_start_conversation "dup" envFull convOkB
        (handle_start_conversation "dup" envFull convOkA []).1).2 =
      [Event.conversation_started] ∧
    lookupConv "dup" (handle_start_conversation "dup" envFull convOkB
        (handle_start_conversation "dup" envFull convOkA []).1).1 ≠
      some convOkA := by
  refine ⟨rfl, ?_⟩
  intro h
  have hlook : lookupConv "dup" (handle_start_conversation "dup" envFull convOkB
      (handle_start_conversation "dup" envFull convOkA []).1).1 = some convOkB := rfl
  rw [hlook] at h
  have hids : convOkB.convId = convOkA.convId :=
    congrArg StreamingConversation.convId (Option.some.inj h)
  exact absurd hids (by decide)

/-- C1 amended: a second create with an identifier already present does
not fail — it emits `conversation_started` and replaces the first
session's entry with the freshly constructed conversation. -/
theorem duplicate_create_replaces (sid : String) (env : Env)
    (fresh old : StreamingConversation) (reg : Registry)
    (henv : truthy env.elevenlabs_api_key = true ∧
            truthy env.elevenlabs_voice_id = true)
    (_hold : lookupConv sid reg = some old) :
    (handle_start_conversation sid env fresh reg).2 =
      [Event.conversation_started] ∧
    lookupConv sid (handle_start_conversation sid env fresh reg).1 =
      some fresh := by
  obtain ⟨h1, h2⟩ := henv
  unfold handle_start_conversation
  simp [h1, h2, setEntry, lookupConv]

/-- C1 amended, witness: with both credentials set and `"dup"` already
bound to `convOkA`, a second create stores `convOkB`. -/
theorem duplicate_create_replaces_witness :
    (handle_start_conversation "dup" envFull convOkB [("dup", convOkA)]).2 =
      [Event.conversation_started] ∧
    lookupConv "dup"
        (handle_start_conversation "dup" envFull convOkB [("dup", convOkA)]).1 =
      some convOkB :=
  duplicate_create_replaces "dup" envFull convOkB convOkA [("dup", convOkA)]
    ⟨rfl, rfl⟩ rfl

/-! ### Claim C2 — missing credentials at bind time -/

/-- C2: if either ElevenLabs credential is missing (unset or empty) the
start attempt fails with the configuration error event, the registry is
unchanged, and in particular no entry for the session identifier is
added — the session never reaches an active state. -/
theorem missing_credentials_rejected (sid : String) (env : Env)
    (fresh : StreamingConversation) (reg : Registry)
    (hmiss : truthy env.elevenlabs_api_key = false ∨
             truthy env.elevenlabs_voice_id = false)
    (habs : lookupConv sid reg = none) :
    (handle_start_conversation sid env fresh reg).2 =
      [Event.error "ElevenLabs configuration missing"] ∧
    (handle_start_conversation sid env fresh reg).1 = reg ∧
    lookupConv sid (handle_start_conversation sid env fresh reg).1 = none := by
  unfold handle_start_conversation
  rcases hmiss with h | h <;> simp [h, habs]

/-- C2 witness: with the API key unset, starting a conversation for
`"s1"` on an empty registry emits the configuration error and adds no
entry. -/
theorem missing_credentials_rejected_witness :
    (handle_start_conversation "s1" envMissingKey convOkA []).2 =
      [Event.error "ElevenLabs configuration missing"] ∧
    (handle_start_conversation "s1" envMissingKey convOkA []).1 =
      ([] : Registry) ∧
    lookupConv "s1" (handle_start_conversation "s1" envMissingKey convOkA []).1 =
      none :=
  missing_credentials_rejected "s1" envMissingKey convOkA [] (Or.inl rfl) rfl

/-! ### Claim C3 — audio exceptions become error events -/

/-- C3: for a session with an active conversation, an exception raised
by `process_audio` is caught by the handler and converted to an `error`
event carrying the exception's message; the registry — in particular
that session's entry — is returned unchanged. -/
theorem audio_exception_to_error_event (sid : String) (reg : Registry)
    (conv : StreamingConversation) (data : Payload) (msg : String)
    (hconv : lookupConv sid reg = some conv)
    (hraise : conv.processAudio (normalizePayload data) = Except.error msg) :
    handle_audio_data sid reg data =
      (reg, [Event.error msg], [normalizePayload data]) := by
  unfold handle_audio_data
  rw [hconv]
  simp [hraise]

/-- C3 witness: `convQuota` raises "upstream quota exceeded"; the
handler emits that message as an error event and leaves the registry
as it was. -/
theorem audio_exception_to_error_event_witness :
    handle_audio_data "s1" [("s1", convQuota)] (Payload.bytes [1, 2]) =
      ([("s1", convQuota)], [Event.error "upstream quota exceeded"],
        [Payload.bytes [1, 2]]) :=
  audio_exception_to_error_event "s1" [("s1", convQuota)] convQuota
    (Payload.bytes [1, 2]) "upstream quota exceeded" rfl rfl

/-! ### Claim C4 — audio outside an accepting state -/

/-- C4: submitting audio for an identifier with no bound conversation
(before start or after termination) fails with the invalid-state error
event "No active conversation found" and nothing is handed to
`process_audio`; for an identifier with a bound conversation the
(normalized) frame is forwarded to `process_audio`. -/
theorem audio_requires_active_conversation (sid : String) (reg : Registry)
    (data : Payload) :
    (lookupConv sid reg = none →
      handle_audio_data sid reg data =
        (reg, [Event.error "No active conversation found"], [])) ∧
    (∀ conv, lookupConv sid reg = some conv →
      (handle_audio_data sid reg data).2.2 = [normalizePayload data]) := by
  constructor
  · intro h
    unfold handle_audio_data
    rw [h]
  · intro conv h
    exact processAudio_receives_normalized sid reg conv data h

/-- C4 witness: on a registry binding only `"s1"`, audio for `"s2"` is
rejected with the error event and no processing, while audio for `"s1"`
is forwarded. -/
theorem audio_requires_active_conversation_witness :
    handle_audio_data "s2" [("s1", convOkA)] (Payload.bytes [7]) =
      ([("s1", convOkA)], [Event.error "No active conversation found"], []) ∧
    (handle_audio_data "s1" [("s1", convOkA)] (Payload.bytes [7])).2.2 =
      [normalizePayload (Payload.bytes [7])] :=
  ⟨(audio_requires_active_conversation "s2" [("s1", convOkA)]
      (Payload.bytes [7])).1 rfl,
   (audio_requires_active_conversation "s1" [("s1", convOkA)]
      (Payload.bytes [7])).2 convOkA rfl⟩

/-! ### Claim C9 — payload normalization -/

/-- C9: for a session with an active conversation the handler hands
`process_audio` exactly the normalized payload, where normalization
turns a list into a float32 numpy array holding the same samples and
leaves every non-list payload unchanged. -/
theorem audio_payload_normalization (sid : String) (reg : Registry)
    (conv : StreamingConversation) (data : Payload)
    (hconv : lookupConv sid reg = some conv) :
    (handle_audio_data sid reg data).2.2 = [normalizePayload data] ∧
    (∀ xs, normalizePayload (Payload.plist xs) = Payload.npFloat32 xs) ∧
    (∀ bs, normalizePayload (Payload.bytes bs) = Payload.bytes bs) ∧
    (∀ xs, normalizePayload (Payload.npFloat32 xs) = Payload.npFloat32 xs) := by
  exact ⟨processAudio_receives_normalized sid reg conv data hconv,
    fun xs => rfl, fun bs => rfl, fun xs => rfl⟩

/-- C9 witness: a list payload submitted for `"s1"` reaches
`process_audio` as the float32 array with the same samples. -/
theorem audio_payload_normalization_witness :
    (handle_audio_data "s1" [("s1", convOkA)] (Payload.plist [3, -1])).2.2 =
      [normalizePayload (Payload.plist [3, -1])] ∧
    normalizePayload (Payload.plist [3, -1]) = Payload.npFloat32 [3, -1] :=
  ⟨(audio_payload_normalization "s1" [("s1", convOkA)] convOkA
      (Payload.plist [3, -1]) rfl).1,
   (audio_payload_normalization "s1" [("s1", convOkA)] convOkA
      (Payload.plist [3, -1]) rfl).2.1 [3, -1]⟩

/-! ### Claim C5 — disconnect -/

/-- C5 counterexample: for the session `"s1"` whose pipeline's
`terminate()` raises, a disconnect leaves the identifier in the
registry — the deletion the claim asserts does not happen. -/
theorem disconnect_counterexample :
    handle_disconnect "s1" [("s1", convFail)] = ([("s1", convFail)], []) ∧
    lookupConv "s1" (handle_disconnect "s1" [("s1", convFail)]).1 =
      some convFail :=
  ⟨rfl, rfl⟩

/-- C5 amended: a disconnect for an identifier not in the registry
changes nothing; for an identifier in the registry, `terminate()` is
invoked and, when it completes normally, the identifier is removed and
no event is emitted; when `terminate()` raises, the registry is left
unchanged (the failure is only logged). -/
theorem disconnect_terminates_and_removes (sid : String) (reg : Registry) :
    (lookupConv sid reg = none → handle_disconnect sid reg = (reg, [])) ∧
    (∀ conv, lookupConv sid reg = some conv → conv.terminateOk = true →
      lookupConv sid (handle_disconnect sid reg).1 = none ∧
      (handle_disconnect sid reg).2 = []) ∧
    (∀ conv, lookupConv sid reg = some conv → conv.terminateOk = false →
      handle_disconnect sid reg = (reg, [])) := by
  refine ⟨?_, ?_, ?_⟩
  · intro h
    unfold handle_disconnect
    rw [h]
  · intro conv h hok
    unfold handle_disconnect
    rw [h]
    simp [hok, lookupConv_removeConv_self]
  · intro conv h hbad
    unfold handle_disconnect
    rw [h]
    simp [hbad]

/-- C5 amended, witness: disconnecting `"s1"` whose `terminate()`
succeeds removes the identifier and emits nothing. -/
theorem disconnect_terminates_and_removes_witness :
    lookupConv "s1" (handle_disconnect "s1" [("s1", convOkA)]).1 = none ∧
    (handle_disconnect "s1" [("s1", convOkA)]).2 = [] :=
  (disconnect_terminates_and_removes "s1" [("s1", convOkA)]).2.1 convOkA rfl rfl

/-! ### Claim C10 — terminate failure during disconnect -/

/-- C10: if `terminate()` raises during disconnect handling, the
deletion is skipped — the identifier keeps its entry — and no event of
any kind (in particular no error event) is emitted; the failure is only
logged. -/
theorem disconnect_terminate_failure_logged_only (sid : String)
    (reg : Registry) (conv : StreamingConversation)
    (h : lookupConv sid reg = some conv)
    (hbad : conv.terminateOk = false) :
    handle_disconnect sid reg = (reg, []) ∧
    lookupConv sid (handle_disconnect sid reg).1 = some conv := by
  have hres : handle_disconnect sid reg = (reg, []) := by
    unfold handle_disconnect
    rw [h]
    simp [hbad]
  exact ⟨hres, by rw [hres]; exact h⟩

/-- C10 witness: `convFail` raises on `terminate()`; after a disconnect
for `"s9"` the entry is still present and nothing was emitted. -/
theorem disconnect_terminate_failure_logged_only_witness :
    handle_disconnect "s9" [("s9", convFail)] = ([("s9", convFail)], []) ∧
    lookupConv "s9" (handle_disconnect "s9" [("s9", convFail)]).1 =
      some convFail :=
  disconnect_terminate_failure_logged_only "s9" [("s9", convFail)] convFail
    rfl rfl

/-! ### Claim C6 — idempotent termination -/

/-- C6 counterexample: for the session `"s1"` whose `terminate()`
raises, requesting end-of-conversation twice in a row produces an error
event on both requests — refuting the claim that two requests in a row
produce no error for every session. -/
theorem end_conversation_counterexample :
    (handle_end_conversation "s1" [("s1", convFail)]).2 =
      [Event.error "terminate failed"] ∧
    (handle_end_conversation "s1"
        (handle_end_conversation "s1" [("s1", convFail)]).1).2 =
      [Event.error "terminate failed"] :=
  ⟨rfl, rfl⟩

/-- C6 amended: for a session whose `terminate()` completes normally,
requesting end-of-conversation twice in a row produces no error event,
emits `conversation_ended` exactly once (on the first request), and the
second request is a no-op on the registry. -/
theorem end_conversation_idempotent (sid : String) (reg : Registry)
    (conv : StreamingConversation)
    (h : lookupConv sid reg = some conv)
    (hok : conv.terminateOk = true) :
    (handle_end_conversation sid reg).2 = [Event.conversation_ended] ∧
    handle_end_conversation sid (handle_end_conversation sid reg).1 =
      ((handle_end_conversation sid reg).1, []) := by
  have hres : handle_end_conversation sid reg =
      (removeConv sid reg, [Event.conversation_ended]) := by
    unfold handle_end_conversation
    rw [h]
    simp [hok]
  constructor
  · rw [hres]
  · rw [hres]
    show handle_end_conversation sid (removeConv sid reg) =
      (removeConv sid reg, [])
    unfold handle_end_conversation
    rw [lookupConv_removeConv_self]

/-- C6 amended, witness: ending `"s1"` (whose `terminate()` succeeds)
twice emits `conversation_ended` once and the second request is a
no-op. -/
theorem end_conversation_idempotent_witness :
    (handle_end_conversation "s1" [("s1", convOkA)]).2 =
      [Event.conversation_ended] ∧
    handle_end_conversation "s1"
        (handle_end_conversation "s1" [("s1", convOkA)]).1 =
      ((handle_end_conversation "s1" [("s1", convOkA)]).1, []) :=
  end_conversation_idempotent "s1" [("s1", convOkA)] convOkA rfl rfl

/-! ### Claim C7 — connect -/

/-- C7 counterexample: after a connect for `"s1"` on an empty registry
the client does receive `connection_established` carrying the
identifier, but the registry has gained no entry for it — refuting the
claim that the session exists in the registry after connect. -/
theorem connect_counterexample :
    (handle_connect "s1" []).2 = [Event.connection_established "s1"] ∧
    lookupConv "s1" (handle_connect "s1" []).1 = none :=
  ⟨rfl, rfl⟩

/-- C7 amended: on connect the client receives a
`connection_established` event carrying the socket identifier, and the
registry is left untouched — the registry entry is created only by
`start_conversation`. -/
theorem connect_emits_connection_established (sid : String)
    (reg : Registry) :
    handle_connect sid reg = (reg, [Event.connection_established sid]) :=
  rfl

/-! ### Claim C8 — codec round-trip -/

/-- C8: for every AudioFrame with a supported channel count (the codec
rejects unsupported channel counts by design, spec section 4.4),
`decode (encode f)` reproduces the frame — samples, sample rate,
channel count and timestamp — exactly. -/
theorem decode_encode_roundtrip (f : AudioFrame)
    (hch : f.channels = 1 ∨ f.channels = 2) :
    decode (encode f) = Except.ok f := by
  have hmap : (f.samples.map zigzag).map unzigzag = f.samples := by
    rw [List.map_map]
    have hcomp : unzigzag ∘ zigzag = id := funext unzigzag_zigzag
    rw [hcomp, List.map_id]
  show (if f.channels = 1 ∨ f.channels = 2 then
          if (4 : Nat) = 1 ∨ (4 : Nat) = 2 ∨ (4 : Nat) = 4 then
            Except.ok (⟨(f.samples.map zigzag).map unzigzag, f.sampleRate,
              f.channels, f.timestamp⟩ : AudioFrame)
          else Except.error "DecodeError: unsupported sample width"
        else Except.error "DecodeError: unsupported channel count") =
      Except.ok f
  rw [if_pos hch, if_pos (by norm_num), hmap]

/-- A concrete mono frame used to witness the round-trip. -/
def sampleFrame : AudioFrame :=
  { samples := [5, -3, 0], sampleRate := 16000, channels := 1,
    timestamp := 42 }

/-- C8 witness: the round-trip holds at a concrete mono frame with
mixed-sign samples. -/
theorem decode_encode_roundtrip_witness :
    (sampleFrame.channels = 1 ∨ sampleFrame.channels = 2) ∧
    decode (encode sampleFrame) = Except.ok sampleFrame :=
  ⟨Or.inl rfl, decode_encode_roundtrip sampleFrame (Or.inl rfl)⟩

end VocodeServer
